import Mathlib

/-!
Verification of the Accessible Single-Select Control (ASC) dropdown pattern
and the password-reset form of the Sevenxleaks front end.

The behavioural core lives in `src/sevenxvip/src/components/CategoryFilter.tsx`
(the sort dropdown in `src/unnamed/part_000` shares the identical handler logic,
specialised to a fixed two-element option list). We embed the event handlers
shallowly: each TypeScript handler body becomes a list of primitive `UiAction`s
(state writes, `onChange` invocations, focus moves) together with an
interpreter `runActions` folding those actions over the open/closed flag.
JavaScript semantics that matter are modelled explicitly:
  * `Array.prototype.findIndex` returns `-1` when no element matches, so the
    index helpers work over `Int`;
  * `x % 0` is `NaN`, `arr[NaN]` is `undefined`, and reading `.value` of
    `undefined` throws a `TypeError`: subscripting with a modulus of zero is
    therefore a runtime error, modelled with `Except JsError`;
  * `a || b` on strings treats both `undefined` and `""` as falsy.
-/

/-- The option record of `CategoryFilter.tsx`: `{ value: string, label: string }`. -/
structure CategoryOption where
  value : String
  label : String
deriving DecidableEq, Repr

/-- A nonsense default used only to state index lookups totally via `List.getD`;
every theorem that uses it keeps the index in range by hypothesis. -/
def fallbackOpt : CategoryOption := ⟨"", ""⟩

/-- The single runtime-error kind the handlers can raise: a JavaScript
`TypeError` from reading a property of `undefined`. -/
inductive JsError where
  | typeError
deriving DecidableEq, Repr

/-- JS `options.findIndex((o) => o.value === selected)`: the index of the first
matching element, or `-1` when none matches. -/
def findIndexJs : List CategoryOption → String → Int
  | [], _ => -1
  | o :: rest, s =>
    if o.value = s then 0
    else
      let r := findIndexJs rest s
      if r = -1 then -1 else r + 1

/-- `CategoryFilter.tsx` lines 33-36: `Math.max(0, options.findIndex((o) => o.value === selected))`. -/
def idxSelected (options : List CategoryOption) (selected : String) : Int :=
  max 0 (findIndexJs options selected)

/-- JS array subscript `options[num % n]` where `n = options.length` and `%` is
the JS remainder: when `n = 0` the index is `NaN` and the lookup yields
`undefined` (`none`); otherwise `num % n` is the euclidean remainder because
every `num` reaching it is non-negative. -/
def jsIndexMod (options : List CategoryOption) (num : Int) : Option CategoryOption :=
  if options.length = 0 then none
  else options.get? (num % (options.length : Int)).toNat

/-- JS `a || b` for an optionally-present string `a`: both an absent field
(`undefined`) and the empty string are falsy and select `b`. -/
def jsOrElse (a : Option String) (b : String) : String :=
  match a with
  | none => b
  | some s => if s = "" then b else s

/-- `CategoryFilter.tsx` lines 81-82:
`options.find((o) => o.value === selected)?.label || placeholder`. -/
def selectedLabel (options : List CategoryOption) (selected placeholder : String) : String :=
  jsOrElse ((options.find? (fun o => o.value = selected)).map (fun o => o.label)) placeholder

/-- The primitive side effects a handler body performs, in source order:
`setIsOpen(b)`, `onChange(v)`, and `btnRef.current?.focus()`. -/
inductive UiAction where
  | setIsOpen (b : Bool)
  | callOnChange (v : String)
  | focusTriggerBtn
deriving DecidableEq, Repr

/-- Observable outcome of running one handler: the open flag after all
`setIsOpen` writes, the `onChange` payloads in call order, and whether focus
was returned to the trigger. -/
structure RunResult where
  isOpen : Bool
  notified : List String
  focusedTrigger : Bool
deriving DecidableEq, Repr

/-- Interpretation of one primitive action. -/
def applyAction (r : RunResult) : UiAction → RunResult
  | .setIsOpen b => { r with isOpen := b }
  | .callOnChange v => { r with notified := r.notified ++ [v] }
  | .focusTriggerBtn => { r with focusedTrigger := true }

/-- Runs a handler body (its action list) from a given open flag. -/
def runActions (isOpen : Bool) (as : List UiAction) : RunResult :=
  as.foldl applyAction ⟨isOpen, [], false⟩

/-- `CategoryFilter.tsx` lines 85-108, the `onKeyDown` handler, as the list of
actions its body performs (or the `TypeError` it throws). The four `if`s of the
source test the constant `e.key` against pairwise distinct strings, so at most
one branch fires and sequential `if`s coincide with this cascade. With
`options = []`, the ArrowDown/ArrowUp subscripts are `options[NaN]` and the
`.value` read throws before `onChange` is reached. -/
def onKeyDownActions (options : List CategoryOption) (selected : String)
    (isOpen : Bool) (key : String) : Except JsError (List UiAction) :=
  if !isOpen then .ok []
  else
    let n : Int := options.length
    let i : Int := max 0 (idxSelected options selected)
    if key = "Escape" then .ok [.setIsOpen false, .focusTriggerBtn]
    else if key = "ArrowDown" then
      match jsIndexMod options (i + 1) with
      | none => .error .typeError
      | some next => .ok [.callOnChange next.value]
    else if key = "ArrowUp" then
      match jsIndexMod options (i - 1 + n) with
      | none => .error .typeError
      | some prev => .ok [.callOnChange prev.value]
    else if key = "Enter" ∨ key = " " then .ok [.setIsOpen false, .focusTriggerBtn]
    else .ok []

/-- The observable result of delivering one key event: actions interpreted from
the current open flag. -/
def onKeyDown (options : List CategoryOption) (selected : String)
    (isOpen : Bool) (key : String) : Except JsError RunResult :=
  (onKeyDownActions options selected isOpen key).map (runActions isOpen)

/-- `CategoryFilter.tsx` lines 160-164, the option-row `onClick`:
`onChange(opt.value); setIsOpen(false); btnRef.current?.focus();`. -/
def rowClickActions (opt : CategoryOption) : List UiAction :=
  [.callOnChange opt.value, .setIsOpen false, .focusTriggerBtn]

/-- `CategoryFilter.tsx` line 181, the outside-overlay `onClick`: `setIsOpen(false)`. -/
def overlayClickActions : List UiAction :=
  [.setIsOpen false]

/-- `CategoryFilter.tsx` line 124, the trigger `onClick`: `setIsOpen((v) => !v)`. -/
def triggerClickActions (isOpen : Bool) : List UiAction :=
  [.setIsOpen (!isOpen)]

/-- The Host echo of §4.3: it applies each `onChange` payload to its stored
selection in order (last-write-wins); with no notification the selection is
unchanged. -/
def hostEcho (selected : String) (notified : List String) : String :=
  notified.foldl (fun _ v => v) selected

/-- Pressing ArrowDown `k` times while the list is shown, the Host echoing the
notified value back as `selected` before the next press; returns the final
selected value and the concatenated notifications, or the first error. -/
def pressArrowDown (options : List CategoryOption) :
    Bool → String → Nat → Except JsError (String × List String)
  | _, selected, 0 => .ok (selected, [])
  | isOpen, selected, Nat.succ k =>
    match onKeyDown options selected isOpen "ArrowDown" with
    | .error e => .error e
    | .ok r =>
      match pressArrowDown options r.isOpen (hostEcho selected r.notified) k with
      | .error e => .error e
      | .ok (s, ns) => .ok (s, r.notified ++ ns)

/-- The fixed option list of the sort dropdown (`src/unnamed/part_000` lines
27-30, with the default labels). -/
def sortOptions : List CategoryOption :=
  [⟨"mostRecent", "Most Recent"⟩, ⟨"oldest", "Oldest"⟩]

/-- One issued HTTP request of the password-reset form: the target URL and the
JSON body, which is the single field `email`. -/
structure PostRequest where
  url : String
  email : String
deriving DecidableEq, Repr

/-- Outcome of the awaited `axios.post`: either the promise resolves with a
response whose `data.message` field may be absent, or it rejects (network
failure and non-2xx server responses alike land in the same `catch`). -/
inductive PostOutcome where
  | resolved (message : Option String)
  | rejected
deriving DecidableEq, Repr

/-- The user-visible state the submit handler leaves behind: the success
message, the error message, and the loading flag. -/
structure ResetUi where
  message : String
  error : String
  isLoading : Bool
deriving DecidableEq, Repr

/-- `Forgotpassword.tsx` lines 21-39, `handleForgotPassword`: one POST of the
email body to the backend base URL concatenated with `/forgot-password`;
on resolve it runs `setMessage(response.data.message || default)`, on reject it
runs `setError` with the one generic error string; the
`finally` clears the loading flag. Returns the list of issued requests and the
final UI state, given the outcome the environment produces. -/
def handleForgotPassword (backendUrl email : String) (outcome : PostOutcome) :
    List PostRequest × ResetUi :=
  let req : PostRequest := ⟨backendUrl ++ "/forgot-password", email⟩
  match outcome with
  | .resolved m => ([req], ⟨jsOrElse m "Password reset link sent!", "", false⟩)
  | .rejected => ([req], ⟨"", "Error sending reset email. Please try again.", false⟩)

/-! Helper lemmas about index resolution. -/

/-- In-range `getD` agrees with `get`. -/
theorem getD_fallback_of_lt (l : List CategoryOption) (i : Nat) (h : i < l.length) :
    l.getD i fallbackOpt = l.get ⟨i, h⟩ := by
  rw [List.getD_eq_getElem?_getD, List.getElem?_eq_getElem h]
  rfl

/-- An in-range `getD` element is a member of the list. -/
theorem getD_fallback_mem (l : List CategoryOption) (i : Nat) (h : i < l.length) :
    l.getD i fallbackOpt ∈ l := by
  rw [getD_fallback_of_lt l i h]
  exact l.get_mem i h

/-- Over an OptionSet with pairwise distinct values, JS `findIndex` recovers the
index of any in-range element. -/
theorem findIndexJs_getD (options : List CategoryOption)
    (hnd : (options.map (fun o => o.value)).Nodup) :
    ∀ i : Nat, i < options.length →
      findIndexJs options ((options.getD i fallbackOpt).value) = (i : Int) := by
  induction options with
  | nil =>
    intro i hi
    exact absurd hi (Nat.not_lt_zero i)
  | cons o rest ih =>
    intro i hi
    cases i with
    | zero => simp [findIndexJs]
    | succ i =>
      have hi' : i < rest.length := Nat.lt_of_succ_lt_succ hi
      have hnotin : o.value ∉ rest.map (fun o => o.value) := (List.nodup_cons.mp hnd).1
      have hne : o.value ≠ ((o :: rest).getD (i + 1) fallbackOpt).value := by
        intro hEq
        rw [List.getD_cons_succ] at hEq
        exact hnotin (hEq ▸ List.mem_map_of_mem _ (getD_fallback_mem rest i hi'))
      have ihv := ih (List.nodup_cons.mp hnd).2 i hi'
      have hcast : (i : Int) ≠ -1 := by omega
      rw [findIndexJs]
      rw [if_neg hne]
      rw [List.getD_cons_succ, ihv, if_neg hcast]
      omega

/-- The clamped index of `CategoryFilter.tsx` resolves an in-range element of a
value-distinct OptionSet back to its own index. -/
theorem idxSelected_getD (options : List CategoryOption)
    (hnd : (options.map (fun o => o.value)).Nodup)
    (i : Nat) (h : i < options.length) :
    idxSelected options ((options.getD i fallbackOpt).value) = (i : Int) := by
  unfold idxSelected
  rw [findIndexJs_getD options hnd i h]
  exact max_eq_right (Int.natCast_nonneg i)

/-- The JS subscript on a non-empty list with a non-negative numerator is the
euclidean-mod lookup. -/
theorem jsIndexMod_natCast (options : List CategoryOption) (m : Nat)
    (hpos : 0 < options.length) :
    jsIndexMod options (m : Int) =
      some (options.getD (m % options.length) fallbackOpt) := by
  unfold jsIndexMod
  rw [if_neg hpos.ne']
  have hlt : m % options.length < options.length := Nat.mod_lt _ hpos
  rw [← Int.natCast_mod, Int.toNat_natCast, List.get?_eq_getElem?,
    List.getElem?_eq_getElem hlt, getD_fallback_of_lt options _ hlt]
  rfl

/-- Branch reduction of the key handler at `ArrowDown` while open. -/
theorem onKeyDownActions_arrowDown (options : List CategoryOption) (selected : String) :
    onKeyDownActions options selected true "ArrowDown" =
      match jsIndexMod options (max 0 (idxSelected options selected) + 1) with
      | none => .error .typeError
      | some next => .ok [.callOnChange next.value] := by
  rfl

/-- Branch reduction of the key handler at `ArrowUp` while open. -/
theorem onKeyDownActions_arrowUp (options : List CategoryOption) (selected : String) :
    onKeyDownActions options selected true "ArrowUp" =
      match jsIndexMod options
          (max 0 (idxSelected options selected) - 1 + (options.length : Int)) with
      | none => .error .typeError
      | some prev => .ok [.callOnChange prev.value] := by
  rfl

/-- One ArrowDown press while open, from an in-range selection of a
value-distinct OptionSet: the control stays open and notifies exactly the value
of the next index modulo `N`. -/
theorem onKeyDown_arrowDown_step (options : List CategoryOption)
    (hnd : (options.map (fun o => o.value)).Nodup)
    (i : Nat) (h : i < options.length) :
    onKeyDown options ((options.getD i fallbackOpt).value) true "ArrowDown" =
      .ok ⟨true, [(options.getD ((i + 1) % options.length) fallbackOpt).value], false⟩ := by
  have hpos : 0 < options.length := Nat.lt_of_le_of_lt (Nat.zero_le i) h
  have hmax : max 0 (idxSelected options ((options.getD i fallbackOpt).value)) = (i : Int) := by
    rw [idxSelected_getD options hnd i h]
    exact max_eq_right (Int.natCast_nonneg i)
  unfold onKeyDown
  rw [onKeyDownActions_arrowDown, hmax]
  have hcast : (i : Int) + 1 = ((i + 1 : Nat) : Int) := by push_cast; ring
  rw [hcast, jsIndexMod_natCast options (i + 1) hpos]
  rfl

/-- One ArrowUp press while open, from an in-range selection of a
value-distinct OptionSet: the control stays open and notifies exactly the value
of the previous index modulo `N` (over the integers, `i - 1 + N` equals the
natural number `i + N - 1` because `i ≥ 0` and `N ≥ 1`). -/
theorem onKeyDown_arrowUp_step (options : List CategoryOption)
    (hnd : (options.map (fun o => o.value)).Nodup)
    (i : Nat) (h : i < options.length) :
    onKeyDown options ((options.getD i fallbackOpt).value) true "ArrowUp" =
      .ok ⟨true,
        [(options.getD ((i + options.length - 1) % options.length) fallbackOpt).value],
        false⟩ := by
  have hpos : 0 < options.length := Nat.lt_of_le_of_lt (Nat.zero_le i) h
  have hmax : max 0 (idxSelected options ((options.getD i fallbackOpt).value)) = (i : Int) := by
    rw [idxSelected_getD options hnd i h]
    exact max_eq_right (Int.natCast_nonneg i)
  unfold onKeyDown
  rw [onKeyDownActions_arrowUp, hmax]
  have hcast : (i : Int) - 1 + (options.length : Int) =
      ((i + options.length - 1 : Nat) : Int) := by
    omega
  rw [hcast, jsIndexMod_natCast options (i + options.length - 1) hpos]
  rfl

/-- Claim C1: over a value-distinct OptionSet of size `N ≥ 1`, starting with the
selection at index `i`, pressing ArrowDown `k` times while open — the Host
echoing each notified value back as `selectedValue` before the next press —
ends with the selection at index `(i + k) % N`, and `onChange` fires exactly
`k` times, in order, the `j`-th (0-based) notification carrying the value of
the option at the newly advanced index `(i + j + 1) % N`. -/
theorem asc_arrowDown_iteration (options : List CategoryOption)
    (hnd : (options.map (fun o => o.value)).Nodup)
    (i k : Nat) (h : i < options.length) :
    pressArrowDown options true ((options.getD i fallbackOpt).value) k =
      .ok ((options.getD ((i + k) % options.length) fallbackOpt).value,
        (List.range k).map
          (fun j => (options.getD ((i + j + 1) % options.length) fallbackOpt).value)) := by
  induction k generalizing i with
  | zero =>
    simp [pressArrowDown, Nat.mod_eq_of_lt h]
  | succ k ih =>
    have hpos : 0 < options.length := Nat.lt_of_le_of_lt (Nat.zero_le i) h
    have h1 : (i + 1) % options.length < options.length := Nat.mod_lt _ hpos
    simp only [pressArrowDown]
    rw [onKeyDown_arrowDown_step options hnd i h]
    simp only [hostEcho, List.foldl]
    have hidx : ((i + 1) % options.length + k) % options.length =
        (i + (k + 1)) % options.length := by
      rw [Nat.mod_add_mod]
      congr 1
      omega
    have hlist : (options.getD ((i + 1) % options.length) fallbackOpt).value ::
        (List.range k).map (fun j =>
          (options.getD (((i + 1) % options.length + j + 1) % options.length)
            fallbackOpt).value) =
        (List.range (k + 1)).map (fun j =>
          (options.getD ((i + j + 1) % options.length) fallbackOpt).value) := by
      rw [List.range_succ_eq_map, List.map_cons, List.map_map]
      congr 1
      apply List.map_congr_left
      intro j hj
      simp only [Function.comp_apply]
      congr 2
      rw [Nat.add_assoc ((i + 1) % options.length) j 1, Nat.mod_add_mod]
      congr 1
      omega
    rw [ih ((i + 1) % options.length) h1]
    simp only [hidx]
    simp
    simpa using hlist

/-- Witness for C1 at the sort dropdown's OptionSet: from `"mostRecent"`
(index 0, size 2), three ArrowDown presses end at `"oldest"` (index
`(0 + 3) % 2 = 1`) and notify `"oldest"`, `"mostRecent"`, `"oldest"` in order. -/
theorem asc_arrowDown_iteration_witness :
    (sortOptions.map (fun o => o.value)).Nodup ∧ 0 < sortOptions.length ∧
    pressArrowDown sortOptions true "mostRecent" 3 =
      .ok ("oldest", ["oldest", "mostRecent", "oldest"]) := by
  refine ⟨by decide, by decide, ?_⟩
  have hstep := asc_arrowDown_iteration sortOptions (by decide) 0 3 (by decide)
  have h0 : pressArrowDown sortOptions true "mostRecent" 3 =
      pressArrowDown sortOptions true ((sortOptions.getD 0 fallbackOpt).value) 3 := rfl
  rw [h0, hstep]
  rfl

/-- Counterexample to claim C2 as stated: on the empty OptionSet, an ArrowDown
key press while open is not a crash-free no-op — `(0 + 1) % 0` is `NaN`,
`options[NaN]` is `undefined`, and reading its `value` raises a `TypeError`
(no `onChange` fires, but a runtime error does occur). -/
theorem asc_empty_arrowDown_raises_at_input :
    onKeyDown ([] : List CategoryOption) "" true "ArrowDown" =
      .error .typeError := rfl

/-- Claim C2 (amended): on the empty OptionSet, ArrowDown and ArrowUp while
open fire no `onChange` notification but raise a `TypeError` (the `max(0, …)`
clamp only guards an absent `selectedValue`, not `N = 0`); Escape still closes
without error. -/
theorem asc_empty_arrow_raises (selected : String) :
    onKeyDown ([] : List CategoryOption) selected true "ArrowDown" =
      .error .typeError ∧
    onKeyDown ([] : List CategoryOption) selected true "ArrowUp" =
      .error .typeError ∧
    onKeyDown ([] : List CategoryOption) selected true "Escape" =
      .ok ⟨false, [], true⟩ :=
  ⟨rfl, rfl, rfl⟩

/-- Claim C3: from any open state — whatever `selectedValue` prior Arrow
presses left behind — Escape closes the control with zero `onChange`
notifications (returning focus to the trigger), and an outside-overlay click
closes it with zero notifications. -/
theorem asc_escape_and_overlay_close_silently
    (options : List CategoryOption) (selected : String) :
    onKeyDown options selected true "Escape" = .ok ⟨false, [], true⟩ ∧
    runActions true overlayClickActions = ⟨false, [], false⟩ :=
  ⟨rfl, rfl⟩

/-- Claim C4: Enter or Space while open closes the control and returns focus to
the trigger with zero `onChange` notifications — it does not commit the
currently highlighted option, whatever `selectedValue` is. -/
theorem asc_enter_space_close_without_select
    (options : List CategoryOption) (selected : String) :
    onKeyDown options selected true "Enter" = .ok ⟨false, [], true⟩ ∧
    onKeyDown options selected true " " = .ok ⟨false, [], true⟩ :=
  ⟨rfl, rfl⟩

/-- Claim C5: from an in-range selection index `i` of a value-distinct
OptionSet with `N ≥ 1`, ArrowUp while open keeps the control open and fires
`onChange` once with the value at `(i + N - 1) % N` (the integer
`(i - 1 + N) mod N`); in particular from index `0` it notifies the value at
index `N - 1`, wrapping around. -/
theorem asc_arrowUp_step_and_wrap (options : List CategoryOption)
    (hnd : (options.map (fun o => o.value)).Nodup)
    (i : Nat) (h : i < options.length) :
    onKeyDown options ((options.getD i fallbackOpt).value) true "ArrowUp" =
      .ok ⟨true,
        [(options.getD ((i + options.length - 1) % options.length) fallbackOpt).value],
        false⟩ ∧
    onKeyDown options ((options.getD 0 fallbackOpt).value) true "ArrowUp" =
      .ok ⟨true, [(options.getD (options.length - 1) fallbackOpt).value], false⟩ := by
  have hpos : 0 < options.length := Nat.lt_of_le_of_lt (Nat.zero_le i) h
  refine ⟨onKeyDown_arrowUp_step options hnd i h, ?_⟩
  have h0 := onKeyDown_arrowUp_step options hnd 0 hpos
  rwa [show (0 + options.length - 1) % options.length = options.length - 1 by
    rw [Nat.zero_add]
    exact Nat.mod_eq_of_lt (by omega)] at h0

/-- Witness for C5 at the sort dropdown's OptionSet: ArrowUp from
`"mostRecent"` (index 0 of 2) notifies `"oldest"`, the value at index
`N - 1 = 1`. -/
theorem asc_arrowUp_step_and_wrap_witness :
    (sortOptions.map (fun o => o.value)).Nodup ∧ 0 < sortOptions.length ∧
    onKeyDown sortOptions "mostRecent" true "ArrowUp" =
      .ok ⟨true, ["oldest"], false⟩ := by
  refine ⟨by decide, by decide, ?_⟩
  have hstep := (asc_arrowUp_step_and_wrap sortOptions (by decide) 0 (by decide)).1
  have h0 : onKeyDown sortOptions "mostRecent" true "ArrowUp" =
      onKeyDown sortOptions ((sortOptions.getD 0 fallbackOpt).value) true "ArrowUp" := rfl
  rw [h0, hstep]
  rfl

/-- Claim C6: when `selectedValue` matches no option value, nothing fails: the
displayed label falls back to the caller-supplied placeholder and the index
used for Arrow navigation resolves to `0`. -/
theorem asc_invalid_selected_fallback (options : List CategoryOption)
    (selected placeholder : String)
    (h : ∀ o ∈ options, o.value ≠ selected) :
    selectedLabel options selected placeholder = placeholder ∧
    idxSelected options selected = 0 := by
  have hf : options.find? (fun o => o.value = selected) = none := by
    apply List.find?_eq_none.mpr
    intro o ho
    simp [h o ho]
  have hidx : findIndexJs options selected = -1 := by
    induction options with
    | nil => rfl
    | cons o rest ih =>
      have hne := h o (by simp)
      rw [findIndexJs, if_neg hne, ih (fun o ho => h o (by simp [ho]))
        (by
          apply List.find?_eq_none.mpr
          intro o ho
          simp [h o (by simp [ho])])]
      rfl
  constructor
  · rw [selectedLabel, hf]
    rfl
  · rw [idxSelected, hidx]
    rfl

/-- Witness for C6: on the sort dropdown's OptionSet with the stray
`selectedValue` `"zzz"`, the label falls back to the placeholder and the index
resolves to `0`. -/
theorem asc_invalid_selected_fallback_witness :
    (∀ o ∈ sortOptions, o.value ≠ "zzz") ∧
    (selectedLabel sortOptions "zzz" "All Categories" = "All Categories" ∧
     idxSelected sortOptions "zzz" = 0) :=
  ⟨by decide, asc_invalid_selected_fallback sortOptions "zzz" "All Categories" (by decide)⟩

/-- Claim C7: activating any option row while the control is open closes it,
fires exactly one `onChange` notification carrying exactly that row's value,
and returns keyboard focus to the trigger. -/
theorem asc_row_click_commits (opt : CategoryOption) :
    runActions true (rowClickActions opt) = ⟨false, [opt.value], true⟩ :=
  rfl

/-- Claim C8: delivering any key event while the control is already closed is a
no-op — the handler returns before touching the index math, so the state stays
closed, no notification fires, and no error is raised (even for Arrow keys on
the empty OptionSet); likewise the overlay close against a closed state leaves
it closed with zero notifications. -/
theorem asc_close_when_closed_noop (options : List CategoryOption)
    (selected key : String) :
    onKeyDown options selected false key = .ok ⟨false, [], false⟩ ∧
    runActions false overlayClickActions = ⟨false, [], false⟩ :=
  ⟨rfl, rfl⟩

/-- Claim C10 (implicit): the trigger button click toggles `isOpen` without
ever firing `onChange`; in particular clicking the trigger while open closes
the control with zero notifications — a transition beyond the spec's
`Closed → Open` listing. -/
theorem asc_trigger_click_toggles (b : Bool) :
    runActions b (triggerClickActions b) = ⟨!b, [], false⟩ ∧
    runActions true (triggerClickActions true) = ⟨false, [], false⟩ := by
  refine ⟨?_, rfl⟩
  cases b <;> rfl

/-- Counterexample to claim C9 as stated: a resolved response whose `message`
field is present but empty does not display that field — JS `||` treats `""`
as falsy, so the default success string is shown instead of the response's
(empty) `message`. -/
theorem forgot_password_empty_message_counterexample :
    (handleForgotPassword "https://api.example" "user@example.com"
        (PostOutcome.resolved (some ""))).2.message ≠ "" := by
  intro hEq
  exact absurd hEq (by decide)

/-- Claim C9 (amended): submitting issues exactly one POST of the email to the
backend base URL concatenated with `/forgot-password` whatever the outcome; on
success the displayed message is the response's `message` field when present
and non-empty, and the default success string when the field is absent or
empty (JS falsy); every rejection — network failure and server error alike —
surfaces as the single generic error string, with no retry. -/
theorem forgot_password_contract_amended (backendUrl email s : String)
    (hs : s ≠ "") :
    (∀ outcome, (handleForgotPassword backendUrl email outcome).1 =
      [⟨backendUrl ++ "/forgot-password", email⟩]) ∧
    (handleForgotPassword backendUrl email (.resolved (some s))).2 =
      ⟨s, "", false⟩ ∧
    (handleForgotPassword backendUrl email (.resolved none)).2 =
      ⟨"Password reset link sent!", "", false⟩ ∧
    (handleForgotPassword backendUrl email (.resolved (some ""))).2 =
      ⟨"Password reset link sent!", "", false⟩ ∧
    (handleForgotPassword backendUrl email .rejected).2 =
      ⟨"", "Error sending reset email. Please try again.", false⟩ := by
  refine ⟨fun outcome => ?_, ?_, rfl, rfl, rfl⟩
  · cases outcome <;> rfl
  · simp [handleForgotPassword, jsOrElse, hs]

/-- Witness for C9 (amended) at a concrete backend URL, email, and non-empty
response message. -/
theorem forgot_password_contract_amended_witness :
    "Reset link dispatched" ≠ "" ∧
    (handleForgotPassword "https://api.example" "user@example.com"
        (PostOutcome.resolved (some "Reset link dispatched"))).2 =
      ⟨"Reset link dispatched", "", false⟩ :=
  ⟨by decide,
    (forgot_password_contract_amended "https://api.example" "user@example.com"
      "Reset link dispatched" (by decide)).2.1⟩
